import Mathlib

/-!
Shallow embedding of the InkSoul backend coupon engine and order lifecycle:
the Coupon model (models/Coupon.js), the Order model (models/Order.js), and
the workflows in routes/orders.js and routes/coupons.js.

Conventions of the embedding:
* JavaScript numbers (currency amounts, percentages) are modelled as exact
  rationals.
* Dates are modelled as integers (milliseconds since epoch); the current
  time is passed explicitly where the source calls the clock.
* Mongo ObjectId references are modelled as strings; a nullable reference
  is an Option of a string.
* JavaScript truthiness tests on nullable numbers and strings are modelled
  explicitly: null and 0 are falsy for numbers, null and the empty string
  are falsy for strings.
* A JavaScript runtime TypeError (null dereference such as calling
  toString on a missing field) is modelled with the Except monad: an
  evaluation that would throw returns an error value.
-/

/-- One of the three coupon types of the schema enum. -/
inductive CouponType where
  | percentage
  | fixed
  | free_shipping
deriving DecidableEq, Repr

/-- Tags for the human-readable messages returned by Coupon.validate; each
constructor stands for one distinct message string of the source. The
minOrder constructor carries the interpolated minimum order value. -/
inductive VMsg where
  | notActive       -- "This coupon is not active"
  | expired         -- "This coupon has expired"
  | notYetValid     -- "This coupon is not yet valid"
  | fullyRedeemed   -- "This coupon has been fully redeemed"
  | userLimit       -- "You have already used this coupon the maximum number of times"
  | minOrder (m : ℚ)  -- "Minimum order value of $m required"
  | notApplicable   -- "This coupon is not applicable to your cart items"
  | validMsg        -- "Coupon is valid"
deriving DecidableEq, Repr

/-- The structured result of Coupon.validate. -/
structure VResult where
  valid : Bool
  message : VMsg
deriving DecidableEq, Repr

/-- One entry of the usedBy array of a coupon. The user reference is
nullable in the stored document. -/
structure UsedByEntry where
  user : Option String
  usedAt : ℤ
  orderValue : Option ℚ
deriving DecidableEq, Repr

/-- One cart line as supplied by the caller of validate; the product and
category fields may be absent from the request body. -/
structure CartItem where
  product : Option String
  category : Option String
deriving DecidableEq, Repr

/-- The Coupon document fields used by the engine (models/Coupon.js). -/
structure Coupon where
  code : String
  couponType : CouponType
  value : ℚ
  minOrderValue : ℚ
  maxDiscount : Option ℚ
  maxUses : Option ℕ
  maxUsesPerUser : ℕ
  usedCount : ℕ
  usedBy : List UsedByEntry
  applicableProducts : List String
  applicableCategories : List String
  excludedProducts : List String
  isActive : Bool
  isPublic : Bool
  startDate : ℤ
  expiresAt : ℤ
deriving DecidableEq, Repr

/-- JavaScript truthiness of a nullable number: null and 0 are falsy. -/
def natTruthy : Option ℕ → Bool
  | none => false
  | some n => n != 0

/-- JavaScript truthiness of a nullable rational: null and 0 are falsy. -/
def ratTruthy : Option ℚ → Bool
  | none => false
  | some q => q != 0

/-- JavaScript truthiness of a nullable string: null and the empty string
are falsy. -/
def strTruthy : Option String → Bool
  | none => false
  | some s => s != ""

/-- JavaScript Math.round: rounds to the nearest integer, halves toward
positive infinity, i.e. the floor of x + 1/2. -/
def jsRound (x : ℚ) : ℤ := ⌊x + 1/2⌋

/-- Embedding of couponSchema.methods.calculateDiscount: the switch on the
coupon type, the truthiness-guarded cap at maxDiscount for percentage
coupons, and the final rounding to two decimal places via
Math.round(discount * 100) / 100. -/
def calculateDiscount (c : Coupon) (orderValue : ℚ) : ℚ :=
  let discount : ℚ :=
    match c.couponType with
    | .percentage =>
      let d := orderValue * c.value / 100
      if ratTruthy c.maxDiscount && decide (c.maxDiscount.getD 0 < d) then
        c.maxDiscount.getD 0
      else d
    | .fixed => min c.value orderValue
    | .free_shipping => 0
  (jsRound (discount * 100) : ℚ) / 100

/-- Discount computation as the specification words it: for a percentage
coupon, orderValue * value / 100 clamped to maxDiscount whenever
maxDiscount is set (present); for a fixed coupon, the minimum of value and
orderValue; for free shipping, zero; rounded half-up to two decimals. -/
def specCalcDiscount (c : Coupon) (orderValue : ℚ) : ℚ :=
  let discount : ℚ :=
    match c.couponType with
    | .percentage =>
      let d := orderValue * c.value / 100
      match c.maxDiscount with
      | some m => min d m
      | none => d
    | .fixed => min c.value orderValue
    | .free_shipping => 0
  (jsRound (discount * 100) : ℚ) / 100

/-- A baseline valid coupon used to build the concrete instances below. -/
def cBase : Coupon :=
  { code := "SAVE", couponType := .fixed, value := 5,
    minOrderValue := 0, maxDiscount := none, maxUses := none,
    maxUsesPerUser := 1, usedCount := 0, usedBy := [],
    applicableProducts := [], applicableCategories := [],
    excludedProducts := [], isActive := true, isPublic := true,
    startDate := 0, expiresAt := 100 }

/-- Embedding of the expression usedBy.filter(u => u.user.toString() ===
userId).length of the source: the callback runs on every entry in order,
and dereferencing a null user reference throws, modelled as an error. -/
def countUserUses (entries : List UsedByEntry) (uid : String) : Except Unit ℕ :=
  match entries with
  | [] => .ok 0
  | e :: rest =>
    match e.user with
    | none => .error ()
    | some u => do
      let n ← countUserUses rest uid
      pure ((if u = uid then 1 else 0) + n)

/-- Embedding of the callback body of cartItems.some in the restriction
check of validate: productMatch, categoryMatch and isExcluded are all
evaluated, and item.product.toString() is only reached when the
corresponding product list is non-empty (Array.prototype.some never calls
the callback on an empty array); reaching it with a missing product field
throws. -/
def itemApplicable (c : Coupon) (item : CartItem) : Except Unit Bool := do
  let productMatch ←
    if c.applicableProducts.isEmpty then pure false
    else match item.product with
      | none => Except.error ()
      | some pid => pure (c.applicableProducts.contains pid)
  let categoryMatch :=
    match item.category with
    | none => false
    | some cat => c.applicableCategories.contains cat
  let isExcluded ←
    if c.excludedProducts.isEmpty then pure false
    else match item.product with
      | none => Except.error ()
      | some pid => pure (c.excludedProducts.contains pid)
  pure ((productMatch || categoryMatch) && !isExcluded)

/-- Array.prototype.some over a fallible callback: stops at the first
element on which the callback yields true, propagating a thrown error. -/
def someM {α : Type} (f : α → Except Unit Bool) : List α → Except Unit Bool
  | [] => .ok false
  | a :: as => do
    if (← f a) then pure true else someM f as

/-- The condition of the max-uses check of validate: maxUses is truthy
(non-null and non-zero) and usedCount has reached it. -/
def maxUsesExhausted (c : Coupon) : Bool :=
  natTruthy c.maxUses && decide (c.maxUses.getD 0 ≤ c.usedCount)

/-- The tail of validate after the per-user check: the minimum order value
check, then the product and category restriction check (run only when an
inclusion list is non-empty), then the valid result. -/
def afterUserCheck (c : Coupon) (orderValue : ℚ) (cartItems : List CartItem) :
    Except Unit VResult :=
  if orderValue < c.minOrderValue then
    .ok ⟨false, .minOrder c.minOrderValue⟩
  else if 0 < c.applicableProducts.length || 0 < c.applicableCategories.length then
    (someM (itemApplicable c) cartItems).bind fun hasApplicableItem =>
      if !hasApplicableItem then .ok ⟨false, .notApplicable⟩
      else .ok ⟨true, .validMsg⟩
  else .ok ⟨true, .validMsg⟩

/-- Embedding of couponSchema.methods.validate: the chain of guarded early
returns of the source, in source order, with the current time passed in
place of new Date(). The per-user check runs only when userId is truthy,
and its filter over usedBy may throw on a null user reference. -/
def couponValidate (c : Coupon) (now : ℤ) (orderValue : ℚ)
    (userId : Option String) (cartItems : List CartItem) :
    Except Unit VResult :=
  if !c.isActive then .ok ⟨false, .notActive⟩
  else if c.expiresAt < now then .ok ⟨false, .expired⟩
  else if now < c.startDate then .ok ⟨false, .notYetValid⟩
  else if maxUsesExhausted c then .ok ⟨false, .fullyRedeemed⟩
  else if strTruthy userId then
    (countUserUses c.usedBy (userId.getD "")).bind fun userUses =>
      if c.maxUsesPerUser ≤ userUses then .ok ⟨false, .userLimit⟩
      else afterUserCheck c orderValue cartItems
  else afterUserCheck c orderValue cartItems

/-- Whether a cart item satisfies the specification wording of check 7:
it matches an included product or category and does not appear in
excludedProducts. -/
def specItemMatches (c : Coupon) (item : CartItem) : Bool :=
  ((match item.product with
    | some pid => c.applicableProducts.contains pid
    | none => false)
   ||
   (match item.category with
    | some cat => c.applicableCategories.contains cat
    | none => false))
  &&
  !(match item.product with
    | some pid => c.excludedProducts.contains pid
    | none => false)

/-- Check 4 of the specification fails when maxUses is set (present) and
usedCount is not below it. -/
def specMaxUsesFails (c : Coupon) : Bool :=
  match c.maxUses with
  | some m => decide (¬ (c.usedCount < m))
  | none => false

/-- Check 5 of the specification fails when a userId is provided and the
count of usedBy entries whose user equals that userId is not below
maxUsesPerUser. -/
def specUserLimitFails (c : Coupon) (userId : Option String) : Bool :=
  match userId with
  | some uid =>
    decide (¬ ((c.usedBy.filter (fun e => e.user = some uid)).length
                 < c.maxUsesPerUser))
  | none => false

/-- Coupon validation as the specification words it: seven checks in the
listed fixed order, short-circuiting on the first failure with the
corresponding message, returning valid when all pass. Check 4 fires when
maxUses is set; check 5 when a userId is provided; check 7 when either
inclusion set is non-empty. -/
def validateSpec (c : Coupon) (now : ℤ) (orderValue : ℚ)
    (userId : Option String) (cartItems : List CartItem) : VResult :=
  if c.isActive = false then ⟨false, .notActive⟩
  else if ¬ (now ≤ c.expiresAt) then ⟨false, .expired⟩
  else if ¬ (c.startDate ≤ now) then ⟨false, .notYetValid⟩
  else if specMaxUsesFails c then ⟨false, .fullyRedeemed⟩
  else if specUserLimitFails c userId then ⟨false, .userLimit⟩
  else if ¬ (c.minOrderValue ≤ orderValue) then ⟨false, .minOrder c.minOrderValue⟩
  else if (c.applicableProducts ≠ [] ∨ c.applicableCategories ≠ []) ∧
          ¬ (cartItems.any (specItemMatches c)) then ⟨false, .notApplicable⟩
  else ⟨true, .validMsg⟩

/-- Embedding of couponSchema.methods.apply: increments usedCount and,
when userId is truthy, pushes a usedBy entry whose usedAt defaults to the
current time. -/
def applyCoupon (c : Coupon) (userId : Option String) (orderValue : ℚ)
    (now : ℤ) : Coupon :=
  let c := { c with usedCount := c.usedCount + 1 }
  if strTruthy userId then
    { c with usedBy := c.usedBy ++ [⟨userId, now, some orderValue⟩] }
  else c

/-- The order status enum of the Order schema. -/
inductive OrderStatus where
  | pending
  | processing
  | shipped
  | delivered
  | cancelled
  | refunded
deriving DecidableEq, Repr

/-- One entry of the statusHistory array of an order. -/
structure StatusEntry where
  status : OrderStatus
  date : ℤ
  note : String
deriving DecidableEq, Repr

/-- One order line, snapshotted from the product at creation time; the
fields not used by the verified workflows (image, size, color) are
omitted. -/
structure OrderItem where
  product : String
  name : String
  price : ℚ
  quantity : ℕ
deriving DecidableEq, Repr

/-- The Order document fields used by the lifecycle methods and the order
routes (models/Order.js). -/
structure Order where
  user : String
  orderNumber : String
  orderItems : List OrderItem
  itemsPrice : ℚ
  taxPrice : ℚ
  shippingPrice : ℚ
  totalPrice : ℚ
  discountAmount : ℚ
  couponCode : String
  isPaid : Bool
  paidAt : Option ℤ
  isDelivered : Bool
  deliveredAt : Option ℤ
  status : OrderStatus
  trackingNumber : String
  shippingCarrier : String
  statusHistory : List StatusEntry
deriving DecidableEq, Repr

/-- Embedding of orderSchema.methods.updateStatus: sets the status, pushes
a history entry, and on a delivered status additionally sets the delivered
flag and timestamp; the cancelled and refunded switch cases are empty in
the source. -/
def updateStatus (o : Order) (newStatus : OrderStatus) (note : String)
    (now : ℤ) : Order :=
  let o1 := { o with
    status := newStatus,
    statusHistory := o.statusHistory ++ [⟨newStatus, now, note⟩] }
  match newStatus with
  | .delivered => { o1 with isDelivered := true, deliveredAt := some now }
  | _ => o1

/-- String.prototype.padStart(4, the zero character) of the source. -/
def padStart4 (s : String) : String :=
  if 4 ≤ s.length then s
  else String.mk (List.replicate (4 - s.length) '0') ++ s

/-- The order number template of the pre-save hook:
INK + Date.now() + String(count + 1).padStart(4, zero). -/
def mkOrderNumber (now : ℤ) (count : ℕ) : String :=
  "INK" ++ toString now ++ padStart4 (toString (count + 1))

/-- Embedding of the pre-save hook of the Order schema: on a new document
it assigns the generated order number (count is the result of
countDocuments at save time) and pushes the initial history entry; on a
subsequent save it does nothing. -/
def orderPreSave (o : Order) (isNew : Bool) (now : ℤ) (count : ℕ) : Order :=
  if isNew then
    { o with
      orderNumber := mkOrderNumber now count,
      statusHistory := o.statusHistory ++ [⟨o.status, now, "Order created"⟩] }
  else o

/-- Embedding of the status guard and mutation of PUT cancel in
routes/orders.js: the request is rejected, leaving the order untouched,
when the current status is shipped, delivered or cancelled; otherwise the
order is cancelled through updateStatus. The ownership and existence
checks, and the stock restoration against the product store, sit outside
the property verified here. The returned flag is true when cancellation
was performed. -/
def cancelRoute (o : Order) (reason : String) (now : ℤ) : Bool × Order :=
  if [OrderStatus.shipped, OrderStatus.delivered,
      OrderStatus.cancelled].contains o.status then
    (false, o)
  else
    (true, updateStatus o .cancelled reason now)

/-- The Product document fields used by the order creation workflow; stock
is an integer because the decrement is an unconditional $inc with no floor
check. -/
structure ProductDoc where
  id : String
  name : String
  price : ℚ
  stock : ℤ
  isActive : Bool
deriving DecidableEq, Repr

/-- One requested order line of the creation request body. -/
structure ReqItem where
  product : String
  quantity : ℕ
deriving DecidableEq, Repr

/-- The outcomes of the order creation route that the embedding
distinguishes. -/
inductive CreateResp where
  | created
  | productNotFound
  | productNotAvailable
  | insufficientStock
  | priceMismatch
  | serverError
deriving DecidableEq, Repr

/-- Product.findById over the modelled store. -/
def findProduct (ps : List ProductDoc) (pid : String) : Option ProductDoc :=
  ps.find? (fun p => p.id = pid)

/-- Embedding of the validation loop of POST orders: each requested item
must name an existing, active product with enough stock; the loop builds
the snapshotted order items and accumulates the calculated items price.
No mutation happens in this phase. -/
def validateItems (ps : List ProductDoc) :
    List ReqItem → Except CreateResp (List OrderItem × ℚ)
  | [] => .ok ([], 0)
  | it :: rest =>
    match findProduct ps it.product with
    | none => .error .productNotFound
    | some p =>
      if !p.isActive then .error .productNotAvailable
      else if p.stock < (it.quantity : ℤ) then .error .insufficientStock
      else do
        let (items, total) ← validateItems ps rest
        pure (⟨p.id, p.name, p.price, it.quantity⟩ :: items,
              p.price * it.quantity + total)

/-- Product.findByIdAndUpdate with an $inc of minus the quantity: a plain
unconditional decrement; a missing product id makes the call a silent
no-op. -/
def decStock (ps : List ProductDoc) (pid : String) (q : ℕ) : List ProductDoc :=
  ps.map (fun p => if p.id = pid then { p with stock := p.stock - q } else p)

/-- The stock decrement loop run after the order was saved. A thrown
infrastructure failure at position faultAt aborts the loop (control jumps
to the catch block of the route); the first component reports whether the
loop threw, the second is the store after the decrements that did run. -/
def decrementLoop (ps : List ProductDoc) (items : List OrderItem) (i : ℕ)
    (faultAt : Option ℕ) : Bool × List ProductDoc :=
  match items with
  | [] => (false, ps)
  | it :: rest =>
    if faultAt = some i then (true, ps)
    else decrementLoop (decStock ps it.product it.quantity) rest (i + 1) faultAt

/-- JavaScript x || d on a nullable number: null and 0 fall back to d. -/
def numOr (o : Option ℚ) (d : ℚ) : ℚ :=
  match o with
  | some q => if q = 0 then d else q
  | none => d

/-- JavaScript x || the empty string on a nullable string. -/
def strOr (o : Option String) : String :=
  match o with
  | some s => s
  | none => ""

/-- Embedding of POST orders in routes/orders.js: validate every item and
check stock (no mutation), check the submitted items price against the
calculated one, save the order (running the pre-save hook, with
countDocuments read from the store), then decrement the stock of each item
in a loop. faultAt injects a thrown store failure at that position of the
decrement loop: the route then answers with a server error from its catch
block, with no rollback of the saved order or of the decrements already
performed. Returns the response, the product store and the order store. -/
def createOrderRoute (ps : List ProductDoc) (orders : List Order)
    (user : String) (reqItems : List ReqItem) (itemsPrice : ℚ)
    (taxPrice shippingPrice totalPrice discountAmount : Option ℚ)
    (couponCode : Option String) (now : ℤ) (faultAt : Option ℕ) :
    CreateResp × List ProductDoc × List Order :=
  match validateItems ps reqItems with
  | .error e => (e, ps, orders)
  | .ok (vitems, calculatedItemsPrice) =>
    let expectedItemsPrice := (jsRound (calculatedItemsPrice * 100) : ℚ) / 100
    if 1/100 < |itemsPrice - expectedItemsPrice| then
      (.priceMismatch, ps, orders)
    else
      let o : Order := {
        user := user,
        orderNumber := "",
        orderItems := vitems,
        itemsPrice := expectedItemsPrice,
        taxPrice := numOr taxPrice 0,
        shippingPrice := numOr shippingPrice 0,
        totalPrice := numOr totalPrice expectedItemsPrice,
        discountAmount := numOr discountAmount 0,
        couponCode := strOr couponCode,
        isPaid := false,
        paidAt := none,
        isDelivered := false,
        deliveredAt := none,
        status := .pending,
        trackingNumber := "",
        shippingCarrier := "",
        statusHistory := [] }
      let saved := orderPreSave o true now orders.length
      let orders1 := orders ++ [saved]
      let (threw, ps1) := decrementLoop ps vitems 0 faultAt
      if threw then (.serverError, ps1, orders1)
      else (.created, ps1, orders1)

/-- One run of the redemption handler of POST coupons apply in
routes/coupons.js, operating on a snapshot of the coupon document it
loaded: validate the snapshot (with no cart items, as in the route); on
success apply the coupon to the snapshot and save it back over the store.
Returns whether the request succeeded and the store afterwards. -/
def redeemOnce (store snapshot : Coupon) (uid : String) (orderValue : ℚ)
    (now : ℤ) : Bool × Coupon :=
  match couponValidate snapshot now orderValue (some uid) [] with
  | .ok r =>
    if r.valid then (true, applyCoupon snapshot (some uid) orderValue now)
    else (false, store)
  | .error _ => (false, store)

/-- Two redemption requests racing: both load the coupon before either
saves, so the second validates and applies a stale snapshot and its save
overwrites the first. Returns the two success flags and the final store. -/
def raceTwo (c0 : Coupon) (uidA uidB : String) (orderValue : ℚ) (now : ℤ) :
    Bool × Bool × Coupon :=
  let (okA, s1) := redeemOnce c0 c0 uidA orderValue now
  let (okB, s2) := redeemOnce s1 c0 uidB orderValue now
  (okA, okB, s2)

/-- The same two requests run as the specification requires: validation
and increment behave as one conditional atomic update, so the second
request sees the store left by the first. -/
def seqTwo (c0 : Coupon) (uidA uidB : String) (orderValue : ℚ) (now : ℤ) :
    Bool × Bool × Coupon :=
  let (okA, s1) := redeemOnce c0 c0 uidA orderValue now
  let (okB, s2) := redeemOnce s1 s1 uidB orderValue now
  (okA, okB, s2)

/-- Concrete coupon for the ordered-checks witness: limited uses, a
per-user allowance of two with one prior use, and a product restriction. -/
def cW : Coupon :=
  { cBase with maxUses := some 5, maxUsesPerUser := 2, usedCount := 1,
               usedBy := [⟨some "alice", 1, some 30⟩],
               applicableProducts := ["p1"] }

/-- Concrete cart for the ordered-checks witness. -/
def itemsW : List CartItem := [⟨some "p1", some "T-Shirts"⟩]

/-- Percentage coupon whose value exceeds one hundred percent. -/
def cPct200 : Coupon := { cBase with couponType := .percentage, value := 200 }

/-- Fixed coupon worth fifty. -/
def cFixed50 : Coupon := { cBase with value := 50 }

/-- Percentage coupon whose maxDiscount is present but zero. -/
def cZeroCap : Coupon :=
  { cBase with couponType := .percentage, value := 10, maxDiscount := some 0 }

/-- Percentage coupon with a positive cap. -/
def cCap : Coupon :=
  { cBase with couponType := .percentage, value := 20, maxDiscount := some 10 }

/-- Single-use coupon for the redemption race. -/
def cRace : Coupon := { cBase with maxUses := some 1 }

/-- Coupon whose usedBy list carries a null user reference. -/
def cNull : Coupon := { cBase with usedBy := [⟨none, 0, none⟩] }

/-- A baseline order used to build the concrete instances below. -/
def oBase : Order :=
  { user := "u1", orderNumber := "INK1", orderItems := [],
    itemsPrice := 0, taxPrice := 0, shippingPrice := 0, totalPrice := 0,
    discountAmount := 0, couponCode := "", isPaid := false, paidAt := none,
    isDelivered := false, deliveredAt := none, status := .pending,
    trackingNumber := "", shippingCarrier := "",
    statusHistory := [⟨.pending, 0, "Order created"⟩] }

/-- An order already refunded. -/
def oRefunded : Order := { oBase with status := .refunded }

/-- First product of the order creation store. -/
def pA : ProductDoc := ⟨"p1", "Tee", 5, 10, true⟩

/-- Second product of the order creation store. -/
def pB : ProductDoc := ⟨"p2", "Sock", 5, 10, true⟩

/-- A two-line order request over both products. -/
def reqAB : List ReqItem := [⟨"p1", 2⟩, ⟨"p2", 3⟩]

/-- The order line snapshotted from pA by the creation workflow. -/
def oiA : OrderItem := ⟨"p1", "Tee", 5, 2⟩

/-- The order line snapshotted from pB by the creation workflow. -/
def oiB : OrderItem := ⟨"p2", "Sock", 5, 3⟩

/-- Coupon.validate as a state-passing method call on the document: the
source method body contains no assignment to any field of this, so its
translation returns the receiver unchanged next to the result. -/
def couponValidateM (c : Coupon) (now : ℤ) (orderValue : ℚ)
    (userId : Option String) (cartItems : List CartItem) :
    Except Unit VResult × Coupon :=
  (couponValidate c now orderValue userId cartItems, c)

/-- Coupon.calculateDiscount as a state-passing method call on the
document: the source method body assigns only the local discount variable
and no field of this, so its translation returns the receiver unchanged
next to the result. -/
def calculateDiscountM (c : Coupon) (orderValue : ℚ) : ℚ × Coupon :=
  (calculateDiscount c orderValue, c)

lemma countUserUses_eq (entries : List UsedByEntry) (uid : String)
    (h : ∀ e ∈ entries, e.user.isSome) :
    countUserUses entries uid =
      .ok ((entries.filter (fun e => e.user = some uid)).length) := by
  induction entries with
  | nil => rfl
  | cons e rest ih =>
    obtain ⟨u, hu⟩ := Option.isSome_iff_exists.mp (h e (by simp))
    have hr := ih (fun x hx => h x (by simp [hx]))
    by_cases huid : u = uid
    · subst huid
      simp [countUserUses, hu, hr, List.filter_cons, Bind.bind, Except.bind,
            pure, Except.pure, Nat.add_comm]
    · simp [countUserUses, hu, hr, List.filter_cons, Bind.bind, Except.bind,
            pure, Except.pure, huid]

lemma itemApplicable_eq (c : Coupon) (item : CartItem)
    (h : item.product.isSome) :
    itemApplicable c item = .ok (specItemMatches c item) := by
  obtain ⟨pid, hp⟩ := Option.isSome_iff_exists.mp h
  rcases hap : c.applicableProducts with _ | ⟨a, as⟩ <;>
    rcases hex : c.excludedProducts with _ | ⟨b, bs⟩ <;>
      rcases hcat : item.category with _ | cat <;>
        simp [itemApplicable, specItemMatches, hp, hap, hex, hcat, Bind.bind,
              Except.bind, pure, Except.pure]

lemma someM_eq_any {α : Type} (f : α → Except Unit Bool) (g : α → Bool)
    (l : List α) (h : ∀ a ∈ l, f a = .ok (g a)) :
    someM f l = .ok (l.any g) := by
  induction l with
  | nil => rfl
  | cons a as ih =>
    have ha := h a (by simp)
    have hr := ih (fun x hx => h x (by simp [hx]))
    cases hg : g a with
    | true => simp [someM, ha, hg, Bind.bind, Except.bind, pure, Except.pure]
    | false =>
      simp [someM, ha, hg, hr, Bind.bind, Except.bind, pure, Except.pure]

lemma afterUserCheck_eq (c : Coupon) (orderValue : ℚ)
    (items : List CartItem) (hitems : ∀ it ∈ items, it.product.isSome) :
    afterUserCheck c orderValue items =
      .ok (if ¬ (c.minOrderValue ≤ orderValue) then
             ⟨false, .minOrder c.minOrderValue⟩
           else if (c.applicableProducts ≠ [] ∨ c.applicableCategories ≠ []) ∧
                   ¬ (items.any (specItemMatches c)) then
             ⟨false, .notApplicable⟩
           else ⟨true, .validMsg⟩) := by
  have hsome : someM (itemApplicable c) items =
      .ok (items.any (specItemMatches c)) :=
    someM_eq_any _ _ _ (fun it hit => itemApplicable_eq c it (hitems it hit))
  by_cases hmin : orderValue < c.minOrderValue
  · simp [afterUserCheck, hmin, not_le.mpr hmin]
  · have hmin' : c.minOrderValue ≤ orderValue := not_lt.mp hmin
    by_cases hguard : 0 < c.applicableProducts.length ∨
        0 < c.applicableCategories.length
    · have hne : c.applicableProducts ≠ [] ∨ c.applicableCategories ≠ [] := by
        rcases hguard with h1 | h1
        · exact Or.inl (List.ne_nil_of_length_pos h1)
        · exact Or.inr (List.ne_nil_of_length_pos h1)
      cases hany : items.any (specItemMatches c) with
      | true =>
        simp [afterUserCheck, hmin, hmin', hguard, hsome, hany, hne,
              Except.bind]
      | false =>
        simp [afterUserCheck, hmin, hmin', hguard, hsome, hany, hne,
              Except.bind]
    · have h1 : ¬ 0 < c.applicableProducts.length := fun h => hguard (Or.inl h)
      have h2 : ¬ 0 < c.applicableCategories.length := fun h => hguard (Or.inr h)
      have hne : ¬ (c.applicableProducts ≠ [] ∨ c.applicableCategories ≠ []) := by
        rintro (h3 | h3)
        · exact h1 (List.length_pos.mpr h3)
        · exact h2 (List.length_pos.mpr h3)
      simp [afterUserCheck, hmin, hmin', h1, h2, hne]

lemma maxUses_cond_eq (c : Coupon) (hmu : c.maxUses ≠ some 0) :
    maxUsesExhausted c = specMaxUsesFails c := by
  rcases hm : c.maxUses with _ | m
  · simp [maxUsesExhausted, specMaxUsesFails, natTruthy, hm]
  · have hm0 : m ≠ 0 := fun h => hmu (by rw [hm, h])
    simp [maxUsesExhausted, specMaxUsesFails, natTruthy, hm, hm0, Nat.not_lt]

/-- C1. Coupon.validate applies the seven checks of the specification in
the listed fixed order, short-circuits on the first failing check with
that check's message, and answers valid when all pass — under the schema
invariant that maxUses is never zero, the caller invariant that a provided
userId is a non-empty id string, and well-formedness of the stored usedBy
entries and the submitted cart items (no null references, so that no check
throws). -/
theorem validate_checks_in_order (c : Coupon) (now : ℤ) (orderValue : ℚ)
    (userId : Option String) (cartItems : List CartItem)
    (hmu : c.maxUses ≠ some 0)
    (huid : userId ≠ some "")
    (husers : ∀ e ∈ c.usedBy, e.user.isSome)
    (hitems : ∀ it ∈ cartItems, it.product.isSome) :
    couponValidate c now orderValue userId cartItems =
      .ok (validateSpec c now orderValue userId cartItems) := by
  have hafter := afterUserCheck_eq c orderValue cartItems hitems
  cases hA : c.isActive with
  | false => simp [couponValidate, validateSpec, hA]
  | true =>
    by_cases hE : c.expiresAt < now
    · simp [couponValidate, validateSpec, hA, hE, not_le.mpr hE]
    · have hE' : now ≤ c.expiresAt := not_lt.mp hE
      by_cases hS : now < c.startDate
      · simp [couponValidate, validateSpec, hA, hE, hE', hS, not_le.mpr hS]
      · have hS' : c.startDate ≤ now := not_lt.mp hS
        have hmeq := maxUses_cond_eq c hmu
        cases hM : specMaxUsesFails c with
        | true => simp [couponValidate, validateSpec, hA, hE, hE', hS, hS',
                        hmeq, hM]
        | false =>
          rcases hu : userId with _ | uid
          · simp [couponValidate, validateSpec, hA, hE, hE', hS, hS', hmeq,
                  hM, hu, strTruthy, specUserLimitFails, hafter]
          · have huid' : uid ≠ "" := fun h => huid (by rw [hu, h])
            have hcount := countUserUses_eq c.usedBy uid husers
            by_cases hL : c.maxUsesPerUser ≤
                (c.usedBy.filter (fun e => e.user = some uid)).length
            · simp [couponValidate, validateSpec, hA, hE, hE', hS, hS', hmeq,
                    hM, hu, strTruthy, huid', hcount, specUserLimitFails,
                    Except.bind, Nat.not_lt, hL]
            · simp [couponValidate, validateSpec, hA, hE, hE', hS, hS', hmeq,
                    hM, hu, strTruthy, huid', hcount, specUserLimitFails,
                    Except.bind, Nat.not_lt, hL, hafter]

/-- Witness for C1 at a concrete coupon, user and cart. -/
theorem validate_checks_in_order_witness :
    couponValidate cW 50 100 (some "alice") itemsW =
      .ok (validateSpec cW 50 100 (some "alice") itemsW) :=
  validate_checks_in_order cW 50 100 (some "alice") itemsW (by decide)
    (by decide) (by decide) (by decide)

lemma jsRound_nonneg {x : ℚ} (hx : 0 ≤ x) : 0 ≤ jsRound x := by
  have h : (0:ℚ) ≤ x + 1/2 := by linarith
  exact Int.floor_nonneg.mpr h

lemma jsRound_le_nat {x : ℚ} {k : ℕ} (h : x ≤ (k:ℚ)) : jsRound x ≤ (k:ℤ) := by
  have h1 : ⌊x + 1/2⌋ ≤ ⌊(k:ℚ) + 1/2⌋ := Int.floor_le_floor (by linarith)
  have h2 : ⌊(k:ℚ) + 1/2⌋ = (k:ℤ) := by
    rw [add_comm, Int.floor_add_nat]
    norm_num
  rw [jsRound]
  rw [h2] at h1
  exact h1

lemma round2_bounds {D : ℚ} {k : ℕ} (h0 : 0 ≤ D) (h1 : D ≤ (k:ℚ)/100) :
    0 ≤ ((jsRound (D * 100) : ℤ) : ℚ)/100 ∧
    ((jsRound (D * 100) : ℤ) : ℚ)/100 ≤ (k:ℚ)/100 := by
  have hD : D * 100 ≤ (k:ℚ) := by linarith
  have hnn := jsRound_nonneg (x := D * 100) (by positivity)
  have hle := jsRound_le_nat hD
  constructor
  · have hc : (0:ℚ) ≤ ((jsRound (D * 100) : ℤ) : ℚ) := by exact_mod_cast hnn
    linarith
  · have hc : ((jsRound (D * 100) : ℤ) : ℚ) ≤ (k:ℚ) := by exact_mod_cast hle
    linarith

/-- C2 counterexample: a percentage coupon whose value exceeds 100 yields
a discount above the order value (value 200 on an order of 50 gives 100);
and even a fixed coupon overshoots a sub-cent order value through the
half-up rounding (value 50 on an order of 0.006 gives 0.01). -/
theorem calculateDiscount_exceeds_order :
    calculateDiscount cPct200 50 = 100 ∧ (50:ℚ) < 100 ∧
    calculateDiscount cFixed50 (6/1000) = 1/100 ∧ (6/1000:ℚ) < 1/100 := by
  refine ⟨?_, by norm_num, ?_, by norm_num⟩
  · norm_num [calculateDiscount, cPct200, cBase, jsRound, ratTruthy]
  · norm_num [calculateDiscount, cFixed50, cBase, jsRound]

/-- C2 as amended. For a coupon of type fixed, or of type percentage whose
value is at most 100, with the schema bounds on value and maxDiscount, and
an order value that is a non-negative whole number of cents,
calculateDiscount returns a value neither negative nor above the order
value. -/
theorem calculateDiscount_bounds (c : Coupon) (k : ℕ)
    (hval : 0 ≤ c.value)
    (hmd : ∀ m, c.maxDiscount = some m → 0 ≤ m)
    (htype : c.couponType = .fixed ∨
             (c.couponType = .percentage ∧ c.value ≤ 100)) :
    0 ≤ calculateDiscount c ((k:ℚ)/100) ∧
    calculateDiscount c ((k:ℚ)/100) ≤ (k:ℚ)/100 := by
  have hov : (0:ℚ) ≤ (k:ℚ)/100 := by positivity
  obtain ⟨D, hD, h0, h1⟩ : ∃ D,
      calculateDiscount c ((k:ℚ)/100) = ((jsRound (D * 100) : ℤ) : ℚ)/100 ∧
      0 ≤ D ∧ D ≤ (k:ℚ)/100 := by
    rcases htype with htf | ⟨htp, hv100⟩
    · exact ⟨min c.value ((k:ℚ)/100), by simp [calculateDiscount, htf],
             le_min hval hov, min_le_right _ _⟩
    · have hdle : (k:ℚ)/100 * c.value / 100 ≤ (k:ℚ)/100 := by
        have := mul_le_mul_of_nonneg_left hv100 hov
        linarith
      cases hC : (ratTruthy c.maxDiscount &&
          decide (c.maxDiscount.getD 0 < (k:ℚ)/100 * c.value / 100)) with
      | false =>
        refine ⟨(k:ℚ)/100 * c.value / 100, ?_, by positivity, hdle⟩
        simp only [calculateDiscount, htp, hC]
        norm_num
      | true =>
        rcases hm : c.maxDiscount with _ | m
        · rw [hm] at hC
          simp [ratTruthy] at hC
        · have hm0 : 0 ≤ m := hmd m hm
          rw [hm] at hC
          simp only [ratTruthy, Option.getD_some, Bool.and_eq_true,
                     decide_eq_true_eq, bne_iff_ne, ne_eq] at hC
          obtain ⟨hmne, hlt⟩ := hC
          refine ⟨m, ?_, hm0, le_trans (le_of_lt hlt) hdle⟩
          simp only [calculateDiscount, htp, hm]
          rw [if_pos]
          · simp
          · simp [ratTruthy, hmne, hlt]
  rw [hD]
  exact round2_bounds h0 h1

/-- Witness for C2 as amended: the fixed coupon of value 50 on an order of
3 currency units (300 cents). -/
theorem calculateDiscount_bounds_witness :
    0 ≤ calculateDiscount cFixed50 (((300:ℕ):ℚ)/100) ∧
    calculateDiscount cFixed50 (((300:ℕ):ℚ)/100) ≤ ((300:ℕ):ℚ)/100 :=
  calculateDiscount_bounds cFixed50 300 (by norm_num [cFixed50, cBase])
    (by simp [cFixed50, cBase]) (Or.inl rfl)

/-- C3 counterexample: with maxDiscount present but equal to 0, the code
skips the cap (JavaScript truthiness treats 0 as unset) while the
specification clamps to it: value 10 percent of 100 gives 10 in the code
and 0 under the specification wording. -/
theorem calculateDiscount_zero_cap_diverges :
    calculateDiscount cZeroCap 100 = 10 ∧ specCalcDiscount cZeroCap 100 = 0 ∧
    (10:ℚ) ≠ 0 := by
  refine ⟨?_, ?_, by norm_num⟩
  · norm_num [calculateDiscount, cZeroCap, cBase, jsRound, ratTruthy]
  · norm_num [specCalcDiscount, cZeroCap, cBase, jsRound]

/-- C3 as amended. Whenever maxDiscount is not the set-but-zero value,
calculateDiscount computes exactly the specification formula: percentage
discount clamped to a set maxDiscount, fixed capped at the order value,
zero for free shipping, rounded half-up to two decimals. -/
theorem calculateDiscount_matches_spec (c : Coupon) (orderValue : ℚ)
    (hmd : c.maxDiscount ≠ some 0) :
    calculateDiscount c orderValue = specCalcDiscount c orderValue := by
  cases htype : c.couponType with
  | fixed => simp [calculateDiscount, specCalcDiscount, htype]
  | free_shipping => simp [calculateDiscount, specCalcDiscount, htype]
  | percentage =>
    rcases hm : c.maxDiscount with _ | m
    · simp [calculateDiscount, specCalcDiscount, htype, hm, ratTruthy]
    · have hm0 : m ≠ 0 := fun h => hmd (by rw [hm, h])
      by_cases hlt : m < orderValue * c.value / 100
      · simp [calculateDiscount, specCalcDiscount, htype, hm, ratTruthy,
              hm0, hlt, min_eq_right (le_of_lt hlt)]
      · simp [calculateDiscount, specCalcDiscount, htype, hm, ratTruthy,
              hm0, hlt, min_eq_left (not_lt.mp hlt)]

/-- Witness for C3 as amended: the coupon of the specification example,
20 percent capped at 10, applied to an order of 100. -/
theorem calculateDiscount_matches_spec_witness :
    calculateDiscount cCap 100 = specCalcDiscount cCap 100 :=
  calculateDiscount_matches_spec cCap 100 (by norm_num [cCap, cBase])

/-- C4. updateStatus sets the status, appends exactly one history entry
(leaving all previous entries in place), sets the delivered flag and a
non-null delivered timestamp exactly when the new status is delivered,
and changes no other field of the order. -/
theorem updateStatus_spec (o : Order) (s : OrderStatus) (note : String)
    (now : ℤ) :
    (updateStatus o s note now).status = s ∧
    (updateStatus o s note now).statusHistory
      = o.statusHistory ++ [⟨s, now, note⟩] ∧
    (updateStatus o s note now).isDelivered
      = (if s = .delivered then true else o.isDelivered) ∧
    (updateStatus o s note now).deliveredAt
      = (if s = .delivered then some now else o.deliveredAt) ∧
    (updateStatus o s note now).isPaid = o.isPaid ∧
    (updateStatus o s note now).paidAt = o.paidAt ∧
    (updateStatus o s note now).orderNumber = o.orderNumber ∧
    (updateStatus o s note now).user = o.user ∧
    (updateStatus o s note now).orderItems = o.orderItems ∧
    (updateStatus o s note now).itemsPrice = o.itemsPrice ∧
    (updateStatus o s note now).taxPrice = o.taxPrice ∧
    (updateStatus o s note now).shippingPrice = o.shippingPrice ∧
    (updateStatus o s note now).totalPrice = o.totalPrice ∧
    (updateStatus o s note now).discountAmount = o.discountAmount ∧
    (updateStatus o s note now).couponCode = o.couponCode ∧
    (updateStatus o s note now).trackingNumber = o.trackingNumber ∧
    (updateStatus o s note now).shippingCarrier = o.shippingCarrier := by
  cases s <;> simp [updateStatus]

/-- C9. On its first persistence an order receives the generated order
number built from the current time and the sequence count and exactly one
appended history entry carrying the current status and the note Order
created, with every other field untouched; a save of an already persisted
order changes nothing. -/
theorem orderPreSave_spec (o : Order) (now : ℤ) (count : ℕ) :
    (orderPreSave o true now count).orderNumber = mkOrderNumber now count ∧
    (orderPreSave o true now count).statusHistory
      = o.statusHistory ++ [⟨o.status, now, "Order created"⟩] ∧
    (orderPreSave o true now count).status = o.status ∧
    (orderPreSave o true now count).isPaid = o.isPaid ∧
    (orderPreSave o true now count).paidAt = o.paidAt ∧
    (orderPreSave o true now count).isDelivered = o.isDelivered ∧
    (orderPreSave o true now count).deliveredAt = o.deliveredAt ∧
    (orderPreSave o true now count).user = o.user ∧
    (orderPreSave o true now count).orderItems = o.orderItems ∧
    (orderPreSave o true now count).itemsPrice = o.itemsPrice ∧
    (orderPreSave o true now count).totalPrice = o.totalPrice ∧
    orderPreSave o false now count = o := by
  simp [orderPreSave]

/-- C5 counterexample: the cancel route accepts an order whose status is
refunded, a status that is neither pending nor processing, and appends a
cancelled history entry to it. -/
theorem cancelRoute_permits_refunded :
    (cancelRoute oRefunded "no longer needed" 5).1 = true ∧
    oRefunded.status ≠ OrderStatus.pending ∧
    oRefunded.status ≠ OrderStatus.processing ∧
    (cancelRoute oRefunded "no longer needed" 5).2.statusHistory
      = oRefunded.statusHistory ++ [⟨.cancelled, 5, "no longer needed"⟩] := by
  decide

/-- C5 as amended. The cancel workflow permits the transition exactly when
the current status is pending, processing or refunded (the guard rejects
only shipped, delivered and cancelled); a rejected request leaves the
order unchanged, and in particular appends no history entry, while an
accepted one cancels the order and appends the cancelled entry. -/
theorem cancelRoute_guard (o : Order) (reason : String) (now : ℤ) :
    ((cancelRoute o reason now).1 = true ↔
      (o.status = .pending ∨ o.status = .processing ∨
       o.status = .refunded)) ∧
    ((cancelRoute o reason now).1 = false →
      (cancelRoute o reason now).2 = o) ∧
    ((cancelRoute o reason now).1 = true →
      (cancelRoute o reason now).2.status = .cancelled ∧
      (cancelRoute o reason now).2.statusHistory
        = o.statusHistory ++ [⟨.cancelled, now, reason⟩]) := by
  cases h : o.status <;> simp [cancelRoute, updateStatus, h]

/-- Witness for C5 as amended at a concrete refunded order. -/
theorem cancelRoute_guard_witness :
    (((cancelRoute oRefunded "x" 3).1 = true ↔
      (oRefunded.status = .pending ∨ oRefunded.status = .processing ∨
       oRefunded.status = .refunded)) ∧
    ((cancelRoute oRefunded "x" 3).1 = false →
      (cancelRoute oRefunded "x" 3).2 = oRefunded) ∧
    ((cancelRoute oRefunded "x" 3).1 = true →
      (cancelRoute oRefunded "x" 3).2.status = .cancelled ∧
      (cancelRoute oRefunded "x" 3).2.statusHistory
        = oRefunded.statusHistory ++ [⟨.cancelled, 3, "x"⟩])) :=
  cancelRoute_guard oRefunded "x" 3

/-- C6. With the single-use coupon cRace, the interleaving in which both
redemption requests load the document before either saves makes both
requests succeed while the store records a single redemption, whereas the
conditional-atomic execution the specification requires (seqTwo) lets the
first succeed and rejects the second. The validate-then-apply sequence of
the code therefore over-redeems a maxUses 1 coupon. -/
theorem coupon_redemption_race :
    cRace.maxUses = some 1 ∧ cRace.usedCount = 0 ∧
    (raceTwo cRace "alice" "bob" 50 10).1 = true ∧
    (raceTwo cRace "alice" "bob" 50 10).2.1 = true ∧
    (seqTwo cRace "alice" "bob" 50 10).1 = true ∧
    (seqTwo cRace "alice" "bob" 50 10).2.1 = false ∧
    (raceTwo cRace "alice" "bob" 50 10).2.2.usedCount = 1 := by
  decide

/-- C10. validate and calculateDiscount are read-only method calls: the
state-passing translations return the document unchanged; apply increments
usedCount by exactly one, appends a usedBy entry exactly when a userId is
provided, and touches no other field. -/
theorem coupon_methods_frame (c : Coupon) (now : ℤ) (orderValue : ℚ)
    (userId : Option String) (cartItems : List CartItem) :
    (couponValidateM c now orderValue userId cartItems).2 = c ∧
    (calculateDiscountM c orderValue).2 = c ∧
    (applyCoupon c userId orderValue now).usedCount = c.usedCount + 1 ∧
    (applyCoupon c userId orderValue now).usedBy
      = (if strTruthy userId then
           c.usedBy ++ [⟨userId, now, some orderValue⟩]
         else c.usedBy) ∧
    (applyCoupon c userId orderValue now).code = c.code ∧
    (applyCoupon c userId orderValue now).couponType = c.couponType ∧
    (applyCoupon c userId orderValue now).value = c.value ∧
    (applyCoupon c userId orderValue now).minOrderValue = c.minOrderValue ∧
    (applyCoupon c userId orderValue now).maxDiscount = c.maxDiscount ∧
    (applyCoupon c userId orderValue now).maxUses = c.maxUses ∧
    (applyCoupon c userId orderValue now).maxUsesPerUser = c.maxUsesPerUser ∧
    (applyCoupon c userId orderValue now).applicableProducts
      = c.applicableProducts ∧
    (applyCoupon c userId orderValue now).applicableCategories
      = c.applicableCategories ∧
    (applyCoupon c userId orderValue now).excludedProducts
      = c.excludedProducts ∧
    (applyCoupon c userId orderValue now).isActive = c.isActive ∧
    (applyCoupon c userId orderValue now).isPublic = c.isPublic ∧
    (applyCoupon c userId orderValue now).startDate = c.startDate ∧
    (applyCoupon c userId orderValue now).expiresAt = c.expiresAt := by
  cases h : strTruthy userId <;>
    simp [couponValidateM, calculateDiscountM, applyCoupon, h]

lemma validateItems_AB :
    validateItems [pA, pB] reqAB = .ok ([oiA, oiB], 25) := by
  simp [validateItems, findProduct, pA, pB, reqAB, oiA, oiB, Bind.bind,
        Except.bind, pure, Except.pure, List.find?]
  norm_num

lemma decrementLoop_AB :
    decrementLoop [pA, pB] [oiA, oiB] 0 (some 1) =
      (true, [{ pA with stock := 8 }, pB]) := by
  simp [decrementLoop, decStock, pA, pB, oiA, oiB]

/-- C7. A two-item order whose stock decrement throws on the second item
leaves the system partially mutated: the route answers with a server
error, yet the order has been persisted and the first item's stock has
already been decremented while the second item's stock is untouched —
order creation is not all-or-nothing. -/
theorem order_creation_partial_mutation :
    (createOrderRoute [pA, pB] [] "u1" reqAB 25 none none none none none 7
        (some 1)).1 = .serverError ∧
    ((createOrderRoute [pA, pB] [] "u1" reqAB 25 none none none none none 7
        (some 1)).2.2).length = 1 ∧
    (createOrderRoute [pA, pB] [] "u1" reqAB 25 none none none none none 7
        (some 1)).2.1 = [{ pA with stock := 8 }, pB] := by
  have h1 := validateItems_AB
  have h2 := decrementLoop_AB
  simp only [createOrderRoute, h1]
  norm_num [jsRound]
  simp [h2]

/-- C8 counterexample: with a usedBy entry carrying a null user reference
and a provided userId, validate dereferences the null reference and
throws instead of returning a structured result. -/
theorem validate_throws_on_null_user :
    couponValidate cNull 50 30 (some "alice") [] = .error () := rfl

/-- C8 as amended. validate returns a structured result and never throws
provided the stored usedBy entries all carry a non-null user reference and
every submitted cart item carries a product field. -/
theorem validate_never_throws (c : Coupon) (now : ℤ) (orderValue : ℚ)
    (userId : Option String) (cartItems : List CartItem)
    (husers : ∀ e ∈ c.usedBy, e.user.isSome)
    (hitems : ∀ it ∈ cartItems, it.product.isSome) :
    ∃ r, couponValidate c now orderValue userId cartItems = .ok r := by
  have hafter := afterUserCheck_eq c orderValue cartItems hitems
  unfold couponValidate
  split_ifs with h1 h2 h3 h4 h5
  · exact ⟨_, rfl⟩
  · exact ⟨_, rfl⟩
  · exact ⟨_, rfl⟩
  · exact ⟨_, rfl⟩
  · rw [countUserUses_eq c.usedBy (userId.getD "") husers]
    simp only [Except.bind]
    split_ifs with h6
    · exact ⟨_, rfl⟩
    · exact ⟨_, hafter⟩
  · exact ⟨_, hafter⟩

/-- Witness for C8 as amended at a concrete well-formed coupon and cart. -/
theorem validate_never_throws_witness :
    ∃ r, couponValidate cW 50 100 (some "alice") itemsW = .ok r :=
  validate_never_throws cW 50 100 (some "alice") itemsW (by decide)
    (by decide)
